import Mathlib

/-
Verification development for the NeedGod script-flow engine
(shallow embedding of `src/needgod_enhanced_app.py`).

The embedding covers:
  * the state-identifier space (Python mixes `int` and `str` keys),
  * the Prompt Node / Edge data model (`questions` literal in `parse_script`),
  * the answer resolver `NeedGodScriptFlow.get_next_question`,
  * the session layer `process_answer` / `NeedGodScriptFlow.add_answer`,
  * graph construction `parse_script`.

Python-specific semantics are embedded explicitly:
  * `needle in hay` on strings is contiguous-substring containment, and the
    empty string is a substring of every string (`strIn`),
  * `answer.lower().strip()` is `normalize` (`pyLower` then `pyStrip`),
  * dict truthiness / `if next_q:` truthiness is `truthyId`,
  * `current_q + 1` on a `str` state would raise `TypeError`; the resolver is
    therefore embedded as `Except String (Option StateId)`, with `.error`
    marking that (unreachable) exception path and `.ok none` the `None`
    terminal sentinel.
-/

set_option maxRecDepth 4000

deriving instance DecidableEq for Except

namespace NeedGod

/-- A state identifier: Python uses `int` keys for numbered questions and
`str` values for named digressions, compared with type-sensitive `==`. -/
inductive StateId where
  | num : Nat → StateId
  | name : String → StateId
deriving DecidableEq

/-- One flow edge of the `answers` dict: `{"next": ..., "skip": ...}`.
`skip` is present on only two edges of the embedded dataset and is never
read by `get_next_question`. -/
structure Edge where
  next : StateId
  skip : Option StateId := none
deriving DecidableEq

/-- One entry of the `questions` literal in `parse_script`: the prompt
`text` plus the ordered `answers` mapping (Python dicts preserve insertion
order, so the rules are an ordered association list). -/
structure Node where
  text : String
  answers : List (String × Edge)
deriving DecidableEq

/-- The script graph: `self.script_data["questions"]`, as an ordered
association list with the distinct keys of the literal. -/
abbrev Graph := List (StateId × Node)

/-- Python dict lookup `self.script_data["questions"].get(q)`
(`NeedGodScriptFlow.get_question`). The literal has distinct keys, so
first-match lookup agrees with dict lookup. -/
def lookupNode (g : Graph) (s : StateId) : Option Node :=
  match g with
  | [] => none
  | (k, n) :: rest => if k = s then some n else lookupNode rest s

/-- Python `key in dict` membership test (line 775: `current_q + 1 in
self.script_data["questions"]`). -/
def hasKey (g : Graph) (s : StateId) : Bool :=
  (lookupNode g s).isSome

/-- `List.isPrefixOf` for `Char` lists, written out so every proof about it
is self-contained. -/
def prefAux : List Char → List Char → Bool
  | [], _ => true
  | _ :: _, [] => false
  | a :: as, b :: bs => a == b && prefAux as bs

/-- Contiguous-sublist test on `Char` lists: `subAux needle hay` holds iff
`needle` occurs contiguously inside `hay`. The empty needle occurs in
every haystack, matching Python. -/
def subAux (needle : List Char) : List Char → Bool
  | [] => needle.isEmpty
  | c :: rest => prefAux needle (c :: rest) || subAux needle rest

/-- Python string containment `needle in hay` (substring test). -/
def strIn (needle hay : String) : Bool :=
  subAux needle.data hay.data

/-- Python `str.lower()` (ASCII case mapping, which covers every string in
the embedded dataset). -/
def pyLower (s : String) : String :=
  ⟨s.data.map Char.toLower⟩

/-- Python `str.strip()`: drop leading and trailing whitespace. -/
def pyStrip (s : String) : String :=
  ⟨((s.data.dropWhile Char.isWhitespace).reverse.dropWhile Char.isWhitespace).reverse⟩

/-- Line 705: `answer_lower = answer.lower().strip()`. -/
def normalize (answer : String) : String :=
  pyStrip (pyLower answer)

/-- Line 709: `if answer_key in answer_lower or answer_lower in answer_key`
— bidirectional substring containment between the trigger and the
normalized answer. -/
def ruleMatches (answerLower trigger : String) : Bool :=
  strIn trigger answerLower || strIn answerLower trigger

/-- The `for answer_key, flow_data in question_data["answers"].items()` loop
(lines 708–709): return the edge of the first rule, in declaration order,
whose trigger matches. -/
def findMatch (rules : List (String × Edge)) (answerLower : String) : Option Edge :=
  match rules with
  | [] => none
  | (trigger, flowData) :: rest =>
    if ruleMatches answerLower trigger then some flowData
    else findMatch rest answerLower

/-- Line 775: `return current_q + 1 if current_q + 1 in self.script_data["questions"] else None`.
On a `str` state this line would raise `TypeError` (`str + int`); that path
is embedded as `Except.error`. -/
def fallbackStep (g : Graph) (currentQ : StateId) : Except String (Option StateId) :=
  match currentQ with
  | .num n => .ok (if hasKey g (.num (n + 1)) then some (.num (n + 1)) else none)
  | .name _ => .error "TypeError: can only concatenate str (not int) to str"

/-- Lines 766–775: the two question-1 lexical overrides, then the numeric
fallback. Reached only when the rule scan produced no match. -/
def overridesStep (g : Graph) (currentQ : StateId) (answerLower : String) :
    Except String (Option StateId) :=
  if currentQ = StateId.num 1 ∧ strIn "heaven" answerLower = true ∧
      strIn "hell" answerLower = true then
    .ok (some (.name "heaven_question"))
  else if currentQ = StateId.num 1 ∧ (strIn "reincarnation" answerLower = true ∨
      strIn "other" answerLower = true ∨ strIn "not sure" answerLower = true) then
    .ok (some (.num 2))
  else
    fallbackStep g currentQ

/-- Question 1 of the `questions` literal (lines 422–430). -/
def q1 : Node where
  text := "What do you think happens to us after we die?"
  answers :=
    [("heaven and hell", ⟨.name "heaven_question", some (.num 2)⟩),
     ("reincarnation", ⟨.num 2, none⟩),
     ("other_theory", ⟨.num 2, none⟩),
     ("not sure", ⟨.num 2, none⟩)]

/-- Question 2 (lines 431–437). -/
def q2 : Node where
  text := "Do you believe there\x27s a God?"
  answers :=
    [("yes", ⟨.num 3, none⟩),
     ("no", ⟨.name "god_analogy", some (.num 3)⟩)]

/-- Question 3 (lines 438–444). -/
def q3 : Node where
  text := "Since we know there is a God, it matters how we live. So, do you think you are a good person?"
  answers :=
    [("yes", ⟨.num 4, none⟩),
     ("no", ⟨.num 7, none⟩)]

/-- Question 4 (lines 445–451). -/
def q4 : Node where
  text := "Have you ever told a lie?"
  answers :=
    [("yes", ⟨.num 7, none⟩),
     ("no", ⟨.name "lie_response", none⟩)]

/-- Question 5 (lines 452–458). -/
def q5 : Node where
  text := "Have you ever used bad language?"
  answers :=
    [("yes", ⟨.num 7, none⟩),
     ("no", ⟨.num 6, none⟩)]

/-- Question 6 (lines 459–465). -/
def q6 : Node where
  text := "Have you ever been angry or disrespected someone?"
  answers :=
    [("yes", ⟨.num 7, none⟩),
     ("no", ⟨.name "sin_response", none⟩)]

/-- Question 7 (lines 466–472). -/
def q7 : Node where
  text := "We\x27ve all done these things and so if God was to judge you based on these things would you be innocent or guilty?"
  answers :=
    [("guilty", ⟨.num 8, none⟩),
     ("innocent", ⟨.name "innocent_response", none⟩)]

/-- Question 8 (lines 473–479). -/
def q8 : Node where
  text := "So would we deserve a reward or punishment?"
  answers :=
    [("punishment", ⟨.num 9, none⟩),
     ("reward", ⟨.name "reward_response", none⟩)]

/-- Question 9 (lines 480–486). -/
def q9 : Node where
  text := "Does that sound like a place in Heaven or Hell?"
  answers :=
    [("hell", ⟨.num 10, none⟩),
     ("heaven", ⟨.name "heaven_response", none⟩)]

/-- Question 10 (lines 487–495). -/
def q10 : Node where
  text := "So how do you think you could avoid your Hell punishment?"
  answers :=
    [("not sure", ⟨.num 11, none⟩),
     ("good things", ⟨.name "good_things_response", none⟩),
     ("forgiveness", ⟨.name "forgiveness_response", none⟩),
     ("repent", ⟨.name "repent_response", none⟩)]

/-- Question 11 (lines 496–503). -/
def q11 : Node where
  text := "What we need is someone else who would take the punishment for us. If someone took 100% of your Hell punishment, how much would be left for you to take?"
  answers :=
    [("nothing", ⟨.num 12, none⟩),
     ("zero", ⟨.num 12, none⟩),
     ("0", ⟨.num 12, none⟩)]

/-- Question 12 (lines 504–510). -/
def q12 : Node where
  text := "So if you have no more Hell punishment, where will you go when you die?"
  answers :=
    [("heaven", ⟨.num 13, none⟩),
     ("hell", ⟨.name "hell_response", none⟩)]

/-- Question 13 (lines 511–516). -/
def q13 : Node where
  text := "That was Jesus, that\x27s why he died on the cross, to take the punishment for our sins and he rose from the dead 3 days later."
  answers :=
    [("continue", ⟨.num 14, none⟩)]

/-- Question 14 (lines 517–523). -/
def q14 : Node where
  text := "So if Jesus does that for you, where do you go when you die?"
  answers :=
    [("heaven", ⟨.num 15, none⟩),
     ("hell", ⟨.name "hell_response_2", none⟩)]

/-- Question 15 (lines 524–530). -/
def q15 : Node where
  text := "So why would God let you into heaven?"
  answers :=
    [("jesus paid", ⟨.num 16, none⟩),
     ("because jesus paid for my sins", ⟨.num 16, none⟩)]

/-- Question 16 (lines 531–536). -/
def q16 : Node where
  text := "Now he offers this to us as a free gift and all I have to do to receive this free gift is to simply trust that Jesus died on the cross paying for 100% of our Hell punishment."
  answers :=
    [("continue", ⟨.num 17, none⟩)]

/-- Question 17 (lines 537–543). -/
def q17 : Node where
  text := "So if you trust that Jesus has paid for all of your sins now and tomorrow you sin 5 more times and then die, would you go to Heaven or Hell?"
  answers :=
    [("heaven", ⟨.num 18, none⟩),
     ("hell", ⟨.name "hell_response_3", none⟩)]

/-- Question 18 (lines 544–550). -/
def q18 : Node where
  text := "and why heaven?"
  answers :=
    [("jesus paid", ⟨.num 19, none⟩),
     ("because jesus paid for my sins", ⟨.num 19, none⟩)]

/-- Question 19 (lines 551–557). -/
def q19 : Node where
  text := "But if you don\x27t trust Jesus paid for your sins, where would you end up?"
  answers :=
    [("hell", ⟨.num 20, none⟩),
     ("heaven", ⟨.name "gift_response", none⟩)]

/-- Question 20 (lines 558–564). -/
def q20 : Node where
  text := "..and since you don\x27t want to go to Hell, WHEN should you start trusting that Jesus has paid for your sins?"
  answers :=
    [("now", ⟨.num 21, none⟩),
     ("before you die", ⟨.name "when_response", none⟩)]

/-- Question 21 (lines 565–571). -/
def q21 : Node where
  text := "So if you stood before God right now and he asked you \"Why should I let you into Heaven?\" what would you say?"
  answers :=
    [("because jesus paid for my sins", ⟨.num 22, none⟩),
     ("jesus paid", ⟨.num 22, none⟩)]

/-- Question 22 (lines 572–578). -/
def q22 : Node where
  text := "Now, imagine a friend of yours says they are going to heaven because they are a good person, where would they go when they die?"
  answers :=
    [("hell", ⟨.num 23, none⟩),
     ("heaven", ⟨.name "friend_response", none⟩)]

/-- Question 23 (lines 579–585). -/
def q23 : Node where
  text := "But another friend comes to you and says \"I\x27m going to heaven because of two reasons. The first reason is because Jesus died for my sins and the second reason is because I\x27ve been a good person.\" Would that person go to Heaven or Hell?"
  answers :=
    [("hell", ⟨.num 24, none⟩),
     ("heaven", ⟨.name "two_reasons_response", none⟩)]

/-- Question 24 (lines 586–592). -/
def q24 : Node where
  text := "So, on a scale of 0 -100%, how sure are you that you will go to Heaven when you die?"
  answers :=
    [("100%", ⟨.num 25, none⟩),
     ("100", ⟨.num 25, none⟩)]

/-- Question 25 (lines 593–599). -/
def q25 : Node where
  text := "So, does doing good things play any part in getting you to heaven?"
  answers :=
    [("no", ⟨.num 26, none⟩),
     ("yes", ⟨.name "good_deeds_response", none⟩)]

/-- Question 26 (lines 600–606). -/
def q26 : Node where
  text := "Do you need to ask for forgiveness to go to Heaven?"
  answers :=
    [("no", ⟨.num 27, none⟩),
     ("yes", ⟨.name "forgiveness_response_2", none⟩)]

/-- Question 27 (lines 607–613). -/
def q27 : Node where
  text := "Do you need to be baptized to go to Heaven?"
  answers :=
    [("no", ⟨.num 28, none⟩),
     ("yes", ⟨.name "baptism_response", none⟩)]

/-- Question 28 (lines 614–620). -/
def q28 : Node where
  text := "So if these things don\x27t get us to Heaven, why do we do good things?"
  answers :=
    [("thankful", ⟨.num 29, none⟩),
     ("because we are thankful", ⟨.num 29, none⟩)]

/-- Question 29 (lines 621–627). -/
def q29 : Node where
  text := "Do you know how you can find out more about Jesus?"
  answers :=
    [("bible", ⟨.num 30, none⟩),
     ("the bible", ⟨.num 30, none⟩)]

/-- Question 30 (lines 628–634). -/
def q30 : Node where
  text := "Yep! Do you have a bible and do you read it much?"
  answers :=
    [("yes", ⟨.num 31, none⟩),
     ("no", ⟨.name "bible_link", none⟩)]

/-- Question 31 (lines 635–640). -/
def q31 : Node where
  text := "Think of it like this, If you ate food only once a week, would you be very strong?"
  answers :=
    [("no", ⟨.num 32, none⟩)]

/-- Question 32 (lines 641–647). Note the literal skips 33: the fallback
from 32 is therefore resolved by the rules, never by `current_q + 1`. -/
def q32 : Node where
  text := "So if the bible is our spiritual food, how often do you think you should read the bible then to be strong spiritually?"
  answers :=
    [("everyday", ⟨.num 34, none⟩),
     ("every day", ⟨.num 34, none⟩)]

/-- Question 34 (lines 648–654). -/
def q34 : Node where
  text := "Do you go to church?... what kind of church is it?"
  answers :=
    [("yes", ⟨.num 35, none⟩),
     ("no", ⟨.name "church_link", none⟩)]

/-- Question 35 (lines 655–661). -/
def q35 : Node where
  text := "Do they teach the same message we\x27ve spoken about here to be saved from our sins?"
  answers :=
    [("yes", ⟨.num 36, none⟩),
     ("no", ⟨.name "wrong_church", none⟩)]

/-- Question 36 (lines 662–668). -/
def q36 : Node where
  text := "Also, think of your family and friends, if you asked them, \"What\x27s the reason you\x27ll go to heaven?\" what would their answer be?"
  answers :=
    [("jesus", ⟨.num 37, none⟩),
     ("good deeds", ⟨.name "family_response", none⟩)]

/-- Question 37 (lines 669–675). -/
def q37 : Node where
  text := "And since you don\x27t want them to go to hell, how could you help them not to end up there?"
  answers :=
    [("tell them", ⟨.num 38, none⟩),
     ("tell them about the gospel", ⟨.num 38, none⟩)]

/-- Question 38 (lines 676–682). -/
def q38 : Node where
  text := "So let me ask you, What if God asked you this \"Why should I not send you to hell for all the sins you\x27ve done\", how would you answer?"
  answers :=
    [("jesus paid", ⟨.num 39, none⟩),
     ("because jesus paid for my sins", ⟨.num 39, none⟩)]

/-- Question 39 (lines 683–689). -/
def q39 : Node where
  text := "Now, remember at the beginning of this chat, what DID you think was getting you to heaven?"
  answers :=
    [("good things", ⟨.name "conclusion", none⟩),
     ("asking for forgiveness", ⟨.name "conclusion", none⟩)]

/-- The full `questions` literal of `parse_script` (lines 421–690), in
declaration order. Keys are the integers 1–32 and 34–39; no named
digression has a node of its own. -/
def needgodGraph : Graph :=
  [(.num 1, q1), (.num 2, q2), (.num 3, q3), (.num 4, q4), (.num 5, q5),
   (.num 6, q6), (.num 7, q7), (.num 8, q8), (.num 9, q9), (.num 10, q10),
   (.num 11, q11), (.num 12, q12), (.num 13, q13), (.num 14, q14),
   (.num 15, q15), (.num 16, q16), (.num 17, q17), (.num 18, q18),
   (.num 19, q19), (.num 20, q20), (.num 21, q21), (.num 22, q22),
   (.num 23, q23), (.num 24, q24), (.num 25, q25), (.num 26, q26),
   (.num 27, q27), (.num 28, q28), (.num 29, q29), (.num 30, q30),
   (.num 31, q31), (.num 32, q32), (.num 34, q34), (.num 35, q35),
   (.num 36, q36), (.num 37, q37), (.num 38, q38), (.num 39, q39)]

/-- `NeedGodScriptFlow.parse_script` (lines 411–693): it stores the fixed
`questions` literal regardless of the `content` argument (the argument only
lands in `raw_content`), performs no validation of any kind, and never
raises. -/
def parseScript (content : String) : Graph :=
  let _rawContent := content
  needgodGraph

/-- `NeedGodScriptFlow.get_next_question` (lines 699–775). The long
`elif` chain on `next_action` (lines 712–764) returns `next_action`
unchanged in every branch, so a matched rule simply yields the `next` of its edge. `Except.ok none` is Python `None` (the terminal sentinel). -/
def getNextQuestion (g : Graph) (currentQ : StateId) (answer : String) :
    Except String (Option StateId) :=
  match lookupNode g currentQ with
  | none => .ok none
  | some questionData =>
    match findMatch questionData.answers (normalize answer) with
    | some flowData => .ok (some flowData.next)
    | none => overridesStep g currentQ (normalize answer)

/-- One entry of `conversation_history`, as appended by
`NeedGodScriptFlow.add_answer` (lines 777–784). The timestamp
(`datetime.now().strftime(...)`) is threaded in as an explicit argument. -/
structure HistoryEntry where
  questionNum : StateId
  questionText : String
  answer : String
  timestamp : String
deriving DecidableEq

/-- The `st.session_state` pieces the session layer mutates:
`current_question` and `conversation_history`. -/
structure Session where
  currentQuestion : StateId
  conversationHistory : List HistoryEntry
deriving DecidableEq

/-- The fresh session set up by `main` (lines 794–802): state `1`, empty
history. -/
def freshSession : Session :=
  { currentQuestion := .num 1, conversationHistory := [] }

/-- `NeedGodScriptFlow.add_answer` (lines 777–784): append one entry whose
text snapshot is the text of the current node, or the `"Special Response"`
placeholder when the state has no node. -/
def addAnswer (hist : List HistoryEntry) (questionNum : StateId)
    (answer ts : String) : List HistoryEntry :=
  hist ++ [{ questionNum := questionNum
             questionText :=
               match lookupNode needgodGraph questionNum with
               | some n => n.text
               | none => "Special Response"
             answer := answer
             timestamp := ts }]

/-- Python truthiness of a resolver result, for line 969 `if next_q:`
(`0` and `""` are falsy; no state of the dataset is either). -/
def truthyId : StateId → Bool
  | .num n => if n = 0 then false else true
  | .name s => if s = "" then false else true

/-- The resolver as the session layer calls it, on the graph of the app.
The `.error` branch is dead code on `needgodGraph` (every key is numeric,
so the `str + int` `TypeError` of line 775 is unreachable); it is mapped to
the terminal sentinel only to make the function total. -/
def resolveNG (currentQ : StateId) (answer : String) : Option StateId :=
  match getNextQuestion needgodGraph currentQ answer with
  | .ok r => r
  | .error _ => none

/-- The UI signal produced by `process_answer` (lines 969–976): either
`"Moving to ..."` with the new state, or `"Conversation complete!"`. -/
inductive Signal where
  | moved : StateId → Signal
  | complete : Signal
deriving DecidableEq

/-- Lines 961–964 of `process_answer`: `if current_q_data:` — append a
history entry exactly when the current state has a node (every node dict of
the literal is non-empty, hence truthy). -/
def recordStep (sess : Session) (answer ts : String) : Session :=
  match lookupNode needgodGraph sess.currentQuestion with
  | some _ =>
    { sess with conversationHistory :=
        addAnswer sess.conversationHistory sess.currentQuestion answer ts }
  | none => sess

/-- `process_answer` (lines 956–978): append a history entry when the
current state has a node (`if current_q_data:`), resolve the next state,
and update `current_question` only when the result is truthy
(`if next_q:`). -/
def processAnswer (sess : Session) (answer ts : String) : Session × Signal :=
  match resolveNG sess.currentQuestion answer with
  | some n =>
    if truthyId n then ({ recordStep sess answer ts with currentQuestion := n }, .moved n)
    else (recordStep sess answer ts, .complete)
  | none => (recordStep sess answer ts, .complete)

/-- Run a session through a list of `(answer, timestamp)` submissions. -/
def runSession (sess : Session) : List (String × String) → Session
  | [] => sess
  | (a, ts) :: rest => runSession (processAnswer sess a ts).1 rest

/-- The `answer` column of a history. -/
def answersOf (hist : List HistoryEntry) : List String :=
  hist.map (fun e => e.answer)

/-- The state evolution of one `process_answer` call, ignoring history. -/
def stepCurrent (c : StateId) (a : String) : StateId :=
  match resolveNG c a with
  | some n => if truthyId n then n else c
  | none => c

/-- The answers a run starting at state `c` actually records: an answer is
appended to history exactly when the state it was submitted at has a node. -/
def recordedAnswers (c : StateId) : List String → List String
  | [] => []
  | a :: rest =>
    if (lookupNode needgodGraph c).isSome
    then a :: recordedAnswers (stepCurrent c a) rest
    else recordedAnswers (stepCurrent c a) rest

/-- Replay a bare answer list (uniform timestamp) against a fresh session. -/
def replaySession (answers : List String) (ts : String) : Session :=
  runSession freshSession (answers.map (fun a => (a, ts)))

/-- Erase the `skip` field of an edge. -/
def eraseSkip (e : Edge) : Edge :=
  { next := e.next, skip := none }

/-- Erase every `skip` field of a node. -/
def eraseSkipNode (n : Node) : Node :=
  { text := n.text, answers := n.answers.map (fun p => (p.1, eraseSkip p.2)) }

/-- Erase every `skip` field of a graph: two graphs differ only in their
`skip` fields exactly when their erasures coincide. -/
def eraseSkipGraph (g : Graph) : Graph :=
  g.map (fun p => (p.1, eraseSkipNode p.2))

/-- Numeric-key test, for showing the `TypeError` path is dead on the
graph of the app. -/
def isNumId : StateId → Bool
  | .num _ => true
  | .name _ => false

/-- A two-rule demonstration node for order sensitivity: the rules
`[("jesus paid", 19), ("paid", 99)]` in that order. -/
def exOrderNode : Node where
  text := "example"
  answers :=
    [("jesus paid", ⟨.num 19, none⟩),
     ("paid", ⟨.num 99, none⟩)]

/-- A one-node graph around `exOrderNode`. -/
def exOrderGraph : Graph :=
  [(.num 5, exOrderNode)]

/-! ## Helper lemmas -/

/-- A missing state resolves to the terminal sentinel (line 702–703). -/
theorem getNextQuestion_lookup_none (g : Graph) (s : StateId) (a : String)
    (h : lookupNode g s = none) : getNextQuestion g s a = .ok none := by
  simp only [getNextQuestion, h]

/-- A matched rule resolves to the `next` of that rule. -/
theorem getNextQuestion_of_match (g : Graph) (s : StateId) (node : Node)
    (a : String) (e : Edge) (hl : lookupNode g s = some node)
    (hf : findMatch node.answers (normalize a) = some e) :
    getNextQuestion g s a = .ok (some e.next) := by
  simp only [getNextQuestion, hl, hf]

/-- With no rule matched, resolution continues with the override/fallback
block. -/
theorem getNextQuestion_no_match (g : Graph) (s : StateId) (node : Node)
    (a : String) (hl : lookupNode g s = some node)
    (hf : findMatch node.answers (normalize a) = none) :
    getNextQuestion g s a = overridesStep g s (normalize a) := by
  simp only [getNextQuestion, hl, hf]

/-- The scan loop returns the edge of the first matching rule: if rule `i`
matches and no earlier rule does, the scan returns the edge of rule `i`. -/
theorem findMatch_first :
    ∀ (rules : List (String × Edge)) (al : String) (i : Nat) (hi : i < rules.length),
      ruleMatches al (rules.get ⟨i, hi⟩).1 = true →
      (∀ (j : Nat) (hj : j < i), ruleMatches al (rules.get ⟨j, Nat.lt_trans hj hi⟩).1 = false) →
      findMatch rules al = some (rules.get ⟨i, hi⟩).2 := by
  intro rules
  induction rules with
  | nil => intro al i hi _ _; exact absurd hi (Nat.not_lt_zero i)
  | cons hd tl ih =>
    intro al i hi hmatch hprev
    obtain ⟨trig, e⟩ := hd
    cases i with
    | zero =>
      simp only [List.get] at hmatch ⊢
      unfold findMatch
      simp [hmatch]
    | succ i =>
      have h0 := hprev 0 (Nat.succ_pos i)
      simp only [List.get] at h0 hmatch ⊢
      unfold findMatch
      simp only [h0, Bool.false_eq_true, if_false]
      exact ih al i (Nat.lt_of_succ_lt_succ hi) hmatch
        (fun j hj => hprev (j + 1) (Nat.succ_lt_succ hj))

/-- The empty needle is a substring of everything (Python `"" in s` is
`True`). -/
theorem subAux_nil : ∀ hay : List Char, subAux [] hay = true := by
  intro hay
  cases hay with
  | nil => rfl
  | cons c rest => rfl

/-- The empty normalized answer matches every trigger via the
`answer_lower in answer_key` direction of line 709. -/
theorem ruleMatches_empty : ∀ trigger : String, ruleMatches "" trigger = true := by
  intro trigger
  unfold ruleMatches strIn
  rw [subAux_nil]
  simp

/-- On a graph whose keys all satisfy `isNumId`, a successful lookup forces
the looked-up state to be numeric. -/
theorem lookup_all_isNum :
    ∀ (g : Graph), (g.map Prod.fst).all isNumId = true →
      ∀ (s : StateId) (n : Node), lookupNode g s = some n → isNumId s = true := by
  intro g
  induction g with
  | nil => intro _ s n h; simp [lookupNode] at h
  | cons p tl ih =>
    intro hall s n h
    obtain ⟨k, nd⟩ := p
    simp only [List.map_cons, List.all_cons, Bool.and_eq_true] at hall
    unfold lookupNode at h
    by_cases hk : k = s
    · rw [← hk]; exact hall.1
    · rw [if_neg hk] at h
      exact ih hall.2 s n h

/-- `recordStep` never changes the current state. -/
theorem recordStep_current (sess : Session) (a ts : String) :
    (recordStep sess a ts).currentQuestion = sess.currentQuestion := by
  unfold recordStep
  cases hl : lookupNode needgodGraph sess.currentQuestion <;> simp

/-- The answers recorded by one `recordStep`: the submitted answer exactly
when the current state has a node. -/
theorem recordStep_answers (sess : Session) (a ts : String) :
    answersOf (recordStep sess a ts).conversationHistory =
      answersOf sess.conversationHistory ++
        (if (lookupNode needgodGraph sess.currentQuestion).isSome then [a] else []) := by
  unfold recordStep
  cases hl : lookupNode needgodGraph sess.currentQuestion <;>
    simp [hl, addAnswer, answersOf]

/-- The state after one `process_answer` call is `stepCurrent`. -/
theorem processAnswer_fst_current (sess : Session) (a ts : String) :
    ((processAnswer sess a ts).1).currentQuestion = stepCurrent sess.currentQuestion a := by
  unfold processAnswer stepCurrent
  cases hr : resolveNG sess.currentQuestion a with
  | none => simp [recordStep_current]
  | some n =>
    cases ht : truthyId n <;> simp [ht, recordStep_current]

/-- The answers recorded by one `process_answer` call. -/
theorem processAnswer_fst_answers (sess : Session) (a ts : String) :
    answersOf ((processAnswer sess a ts).1).conversationHistory =
      answersOf sess.conversationHistory ++
        (if (lookupNode needgodGraph sess.currentQuestion).isSome then [a] else []) := by
  unfold processAnswer
  cases hr : resolveNG sess.currentQuestion a with
  | none => simp [recordStep_answers]
  | some n =>
    cases ht : truthyId n <;> simp [ht, recordStep_answers]

/-- The current state of a run is a fold of `stepCurrent` over the answers. -/
theorem runSession_current :
    ∀ (l : List (String × String)) (sess : Session),
      (runSession sess l).currentQuestion =
        List.foldl stepCurrent sess.currentQuestion (l.map Prod.fst) := by
  intro l
  induction l with
  | nil => intro sess; rfl
  | cons p rest ih =>
    intro sess
    obtain ⟨a, ts⟩ := p
    show (runSession (processAnswer sess a ts).1 rest).currentQuestion = _
    rw [ih, processAnswer_fst_current]
    simp [List.foldl_cons]

/-- Equation lemma for `recordedAnswers` on a cons cell. -/
theorem recordedAnswers_cons (c : StateId) (a : String) (l : List String) :
    recordedAnswers c (a :: l) =
      if (lookupNode needgodGraph c).isSome
      then a :: recordedAnswers (stepCurrent c a) l
      else recordedAnswers (stepCurrent c a) l := rfl

/-- The answer column of the history of a run is the answer column of the
initial history followed by the `recordedAnswers` of the submitted answers. -/
theorem runSession_answers :
    ∀ (l : List (String × String)) (sess : Session),
      answersOf (runSession sess l).conversationHistory =
        answersOf sess.conversationHistory ++
          recordedAnswers sess.currentQuestion (l.map Prod.fst) := by
  intro l
  induction l with
  | nil => intro sess; simp [runSession, recordedAnswers]
  | cons p rest ih =>
    intro sess
    obtain ⟨a, ts⟩ := p
    show answersOf (runSession (processAnswer sess a ts).1 rest).conversationHistory = _
    rw [ih, processAnswer_fst_answers, processAnswer_fst_current]
    simp only [List.map_cons]
    rw [recordedAnswers_cons]
    cases hl : (lookupNode needgodGraph sess.currentQuestion).isSome <;>
      simp [hl, List.append_assoc]

/-- Submitting at a missing (terminal) state leaves the state unchanged. -/
theorem stepCurrent_missing (c : StateId) (a : String)
    (h : lookupNode needgodGraph c = none) : stepCurrent c a = c := by
  unfold stepCurrent resolveNG
  rw [getNextQuestion_lookup_none needgodGraph c a h]

/-- Folding the step function over only the recorded answers reaches the
same state as folding over all answers: unrecorded answers were submitted
at node-less states, where the step is the identity. -/
theorem foldl_recorded :
    ∀ (l : List String) (c : StateId),
      List.foldl stepCurrent c (recordedAnswers c l) = List.foldl stepCurrent c l := by
  intro l
  induction l with
  | nil => intro c; rfl
  | cons a rest ih =>
    intro c
    rw [recordedAnswers_cons]
    cases hl : lookupNode needgodGraph c with
    | some nd =>
      simp only [hl, Option.isSome_some, if_true]
      simp only [List.foldl_cons]
      exact ih (stepCurrent c a)
    | none =>
      have hstep : stepCurrent c a = c := stepCurrent_missing c a hl
      simp only [hl, Option.isSome_none, Bool.false_eq_true, if_false]
      rw [hstep, List.foldl_cons, hstep]
      exact ih c

/-- Lookup commutes with `skip` erasure. -/
theorem lookup_eraseSkip :
    ∀ (g : Graph) (s : StateId),
      lookupNode (eraseSkipGraph g) s = (lookupNode g s).map eraseSkipNode := by
  intro g
  induction g with
  | nil => intro s; rfl
  | cons p tl ih =>
    intro s
    obtain ⟨k, nd⟩ := p
    show lookupNode ((k, eraseSkipNode nd) :: eraseSkipGraph tl) s = _
    unfold lookupNode
    by_cases hk : k = s
    · simp [hk]
    · simp [hk, ih]

/-- The rule scan commutes with `skip` erasure. -/
theorem findMatch_eraseSkip :
    ∀ (rules : List (String × Edge)) (al : String),
      findMatch (rules.map (fun p => (p.1, eraseSkip p.2))) al =
        (findMatch rules al).map eraseSkip := by
  intro rules
  induction rules with
  | nil => intro al; rfl
  | cons p rest ih =>
    intro al
    obtain ⟨trig, e⟩ := p
    show findMatch ((trig, eraseSkip e) :: rest.map (fun p => (p.1, eraseSkip p.2))) al = _
    unfold findMatch
    cases hm : ruleMatches al trig <;> simp [hm, ih]

/-- Key membership commutes with `skip` erasure. -/
theorem hasKey_eraseSkip (g : Graph) (s : StateId) :
    hasKey (eraseSkipGraph g) s = hasKey g s := by
  unfold hasKey
  rw [lookup_eraseSkip]
  cases lookupNode g s <;> rfl

/-- Resolution is invariant under erasing every `skip` field. -/
theorem getNextQuestion_eraseSkip :
    ∀ (g : Graph) (s : StateId) (a : String),
      getNextQuestion (eraseSkipGraph g) s a = getNextQuestion g s a := by
  intro g s a
  unfold getNextQuestion
  rw [lookup_eraseSkip]
  cases hl : lookupNode g s with
  | none => rfl
  | some node =>
    simp only [Option.map_some']
    show (match findMatch (eraseSkipNode node).answers (normalize a) with
          | some flowData => Except.ok (some flowData.next)
          | none => overridesStep (eraseSkipGraph g) s (normalize a)) = _
    have hans : (eraseSkipNode node).answers =
        node.answers.map (fun p => (p.1, eraseSkip p.2)) := rfl
    rw [hans, findMatch_eraseSkip]
    cases hf : findMatch node.answers (normalize a) with
    | some e => rfl
    | none =>
      simp only [Option.map_none']
      unfold overridesStep
      by_cases h1 : s = StateId.num 1 ∧ strIn "heaven" (normalize a) = true ∧
          strIn "hell" (normalize a) = true
      · rw [if_pos h1, if_pos h1]
      · rw [if_neg h1, if_neg h1]
        by_cases h2 : s = StateId.num 1 ∧ (strIn "reincarnation" (normalize a) = true ∨
            strIn "other" (normalize a) = true ∨ strIn "not sure" (normalize a) = true)
        · rw [if_pos h2, if_pos h2]
        · rw [if_neg h2, if_neg h2]
          cases s with
          | num n => simp [fallbackStep, hasKey_eraseSkip]
          | name t => rfl

/-! ## Claim theorems -/

/-- Claim C1: for every state whose node exists in the graph and every
answer, the resolver normalizes the answer (lowercase, strip), scans the
rules of the node in declared order, and returns the `next` of the first rule
whose trigger is a substring of the normalized answer or vice versa —
first-match-wins, never a later rule. -/
theorem resolver_first_match_wins :
    ∀ (g : Graph) (s : StateId) (node : Node) (a : String) (i : Nat)
      (hi : i < node.answers.length),
      lookupNode g s = some node →
      ruleMatches (normalize a) (node.answers.get ⟨i, hi⟩).1 = true →
      (∀ (j : Nat) (hj : j < i),
        ruleMatches (normalize a) (node.answers.get ⟨j, Nat.lt_trans hj hi⟩).1 = false) →
      getNextQuestion g s a = .ok (some ((node.answers.get ⟨i, hi⟩).2).next) := by
  intro g s node a i hi hl hm hp
  exact getNextQuestion_of_match g s node a _ hl
    (findMatch_first node.answers (normalize a) i hi hm hp)

/-- Witness for C1, on a node with rules
`[("jesus paid", 19), ("paid", 99)]`: resolving
"jesus paid for my sins" yields 19 (rule 0), never 99. -/
theorem resolver_first_match_wins_witness :
    ((0 : Nat) < exOrderNode.answers.length ∧
      lookupNode exOrderGraph (.num 5) = some exOrderNode ∧
      ruleMatches (normalize "jesus paid for my sins")
        ((exOrderNode.answers.get ⟨0, by decide⟩).1) = true) ∧
    getNextQuestion exOrderGraph (.num 5) "jesus paid for my sins" = .ok (some (.num 19)) ∧
    Except.ok (some (StateId.num 19)) ≠
      (Except.ok (some (StateId.num 99)) : Except String (Option StateId)) :=
  ⟨⟨by decide, by decide, by decide⟩,
   resolver_first_match_wins exOrderGraph (.num 5) exOrderNode "jesus paid for my sins"
     0 (by decide) (by decide) (by decide)
     (fun j hj => absurd hj (Nat.not_lt_zero j)),
   by decide⟩

/-- Claim C2: at a numbered state whose node exists, when no rule matches
(and, at state 1, no entry-state override applies), the resolver returns
`s + 1` when that key exists in the graph and the terminal sentinel
otherwise. -/
theorem resolver_numeric_fallback :
    ∀ (g : Graph) (n : Nat) (node : Node) (a : String),
      lookupNode g (.num n) = some node →
      findMatch node.answers (normalize a) = none →
      ¬(n = 1 ∧ strIn "heaven" (normalize a) = true ∧ strIn "hell" (normalize a) = true) →
      ¬(n = 1 ∧ (strIn "reincarnation" (normalize a) = true ∨
          strIn "other" (normalize a) = true ∨ strIn "not sure" (normalize a) = true)) →
      getNextQuestion g (.num n) a =
        .ok (if hasKey g (.num (n + 1)) then some (.num (n + 1)) else none) := by
  intro g n node a hl hf h1 h2
  rw [getNextQuestion_no_match g _ node a hl hf]
  have h1' : ¬(StateId.num n = StateId.num 1 ∧ strIn "heaven" (normalize a) = true ∧
      strIn "hell" (normalize a) = true) := by
    rintro ⟨he, hh, hl2⟩
    injection he with hn
    exact h1 ⟨hn, hh, hl2⟩
  have h2' : ¬(StateId.num n = StateId.num 1 ∧ (strIn "reincarnation" (normalize a) = true ∨
      strIn "other" (normalize a) = true ∨ strIn "not sure" (normalize a) = true)) := by
    rintro ⟨he, hrest⟩
    injection he with hn
    exact h2 ⟨hn, hrest⟩
  unfold overridesStep
  rw [if_neg h1', if_neg h2']
  rfl

/-- Witness for C2 at state 31: `resolve(31, "banana")` falls back to 32
(no rule matches, and 32 is a key), while `resolve(31, "no")` reaches 32
through the explicit rule. -/
theorem resolver_numeric_fallback_witness :
    (lookupNode needgodGraph (.num 31) = some q31 ∧
      findMatch q31.answers (normalize "banana") = none) ∧
    getNextQuestion needgodGraph (.num 31) "banana" = .ok (some (.num 32)) ∧
    getNextQuestion needgodGraph (.num 31) "no" = .ok (some (.num 32)) :=
  ⟨⟨by decide, by decide⟩,
   (resolver_numeric_fallback needgodGraph 31 q31 "banana" (by decide) (by decide)
      (by decide) (by decide)).trans (by decide),
   by decide⟩

/-- Claim C3: at the entry state 1, when the ordinary rule scan fails, an
answer containing both "heaven" and "hell" routes to the
`heaven_question` digression, and otherwise an answer containing
"reincarnation", "other" or "not sure" routes to state 2 — both ahead of
the numeric fallback. The two concrete examples of the claim also hold
(each already matches a rule of state 1). -/
theorem resolver_entry_overrides :
    (∀ a : String,
      findMatch q1.answers (normalize a) = none →
      ((strIn "heaven" (normalize a) = true ∧ strIn "hell" (normalize a) = true →
          getNextQuestion needgodGraph (.num 1) a = .ok (some (.name "heaven_question"))) ∧
       (¬(strIn "heaven" (normalize a) = true ∧ strIn "hell" (normalize a) = true) →
        (strIn "reincarnation" (normalize a) = true ∨ strIn "other" (normalize a) = true ∨
            strIn "not sure" (normalize a) = true) →
        getNextQuestion needgodGraph (.num 1) a = .ok (some (.num 2))))) ∧
    getNextQuestion needgodGraph (.num 1) "I believe in Heaven and Hell" =
      .ok (some (.name "heaven_question")) ∧
    getNextQuestion needgodGraph (.num 1) "reincarnation maybe" = .ok (some (.num 2)) := by
  refine ⟨?_, by decide, by decide⟩
  intro a hf
  have hl : lookupNode needgodGraph (.num 1) = some q1 := rfl
  constructor
  · rintro ⟨hh, hl2⟩
    rw [getNextQuestion_no_match needgodGraph _ q1 a hl hf]
    unfold overridesStep
    rw [if_pos ⟨rfl, hh, hl2⟩]
  · intro hnot hor
    rw [getNextQuestion_no_match needgodGraph _ q1 a hl hf]
    have h1' : ¬(StateId.num 1 = StateId.num 1 ∧ strIn "heaven" (normalize a) = true ∧
        strIn "hell" (normalize a) = true) := by
      rintro ⟨_, hh, hl2⟩
      exact hnot ⟨hh, hl2⟩
    unfold overridesStep
    rw [if_neg h1', if_pos ⟨rfl, hor⟩]

/-- Witness for C3: "hell and heaven" matches no rule of state 1 but
contains both words, so the first override fires; "some other idea"
matches no rule and contains "other", so the second override fires. -/
theorem resolver_entry_overrides_witness :
    (findMatch q1.answers (normalize "hell and heaven") = none ∧
      getNextQuestion needgodGraph (.num 1) "hell and heaven" =
        .ok (some (.name "heaven_question"))) ∧
    (findMatch q1.answers (normalize "some other idea") = none ∧
      getNextQuestion needgodGraph (.num 1) "some other idea" = .ok (some (.num 2))) :=
  ⟨⟨by decide,
    (resolver_entry_overrides.1 "hell and heaven" (by decide)).1 (by decide)⟩,
   ⟨by decide,
    (resolver_entry_overrides.1 "some other idea" (by decide)).2 (by decide) (by decide)⟩⟩

/-- Claim C4: the resolver is total on the graph of the app — it never raises
(the `TypeError` path of line 775 is unreachable because every key of the
graph is numeric) and always returns a state or the terminal sentinel;
every identifier absent from the graph, including the unauthored
digressions `lie_response` and `sin_response`, resolves to the terminal
sentinel for every answer. -/
theorem resolver_total_missing_terminal :
    (∀ (s : StateId) (a : String), lookupNode needgodGraph s = none →
        getNextQuestion needgodGraph s a = .ok none) ∧
    (∀ a : String, getNextQuestion needgodGraph (.name "lie_response") a = .ok none) ∧
    (∀ a : String, getNextQuestion needgodGraph (.name "sin_response") a = .ok none) ∧
    (∀ (s : StateId) (a : String), ∃ r, getNextQuestion needgodGraph s a = Except.ok r) := by
  refine ⟨?_, ?_, ?_, ?_⟩
  · intro s a h
    exact getNextQuestion_lookup_none _ _ _ h
  · intro a
    exact getNextQuestion_lookup_none _ _ _ (by decide)
  · intro a
    exact getNextQuestion_lookup_none _ _ _ (by decide)
  · intro s a
    cases hl : lookupNode needgodGraph s with
    | none => exact ⟨none, getNextQuestion_lookup_none _ _ _ hl⟩
    | some node =>
      have hnum : isNumId s = true := lookup_all_isNum needgodGraph (by decide) s node hl
      cases s with
      | name t => simp [isNumId] at hnum
      | num k =>
        simp only [getNextQuestion, hl]
        cases hf : findMatch node.answers (normalize a) with
        | some e => exact ⟨some e.next, by simp [hf]⟩
        | none =>
          simp only [hf]
          unfold overridesStep
          split
          · exact ⟨_, rfl⟩
          · split
            · exact ⟨_, rfl⟩
            · exact ⟨_, rfl⟩

/-- Witness for C4 at the absent key 33 (the dataset jumps from 32 to
34). -/
theorem resolver_total_missing_terminal_witness :
    lookupNode needgodGraph (.num 33) = none ∧
    getNextQuestion needgodGraph (.num 33) "anything at all" = .ok none :=
  ⟨by decide,
   resolver_total_missing_terminal.1 (.num 33) "anything at all" (by decide)⟩

/-- Counterexample to claim C5: a whitespace-only answer normalizes to the
empty string, and Python `"" in trigger` is `True`, so the FIRST rule of
state 1 matches and the resolver returns its `next`
(`heaven_question`) — it does not fall through to the
override/fallback block, which would have produced state 2. -/
theorem empty_answer_counterexample :
    normalize " " = "" ∧
    getNextQuestion needgodGraph (.num 1) " " = .ok (some (.name "heaven_question")) ∧
    overridesStep needgodGraph (.num 1) (normalize " ") = .ok (some (.num 2)) ∧
    (Except.ok (some (StateId.name "heaven_question")) :
        Except String (Option StateId)) ≠ .ok (some (.num 2)) := by
  refine ⟨by decide, by decide, by decide, by decide⟩

/-- Amended claim C5: an empty or whitespace-only answer matches EVERY
non-empty trigger through the `answer_lower in answer_key` direction of
the containment test, so at any state with at least one rule the resolver
returns the `next` of the first declared rule and never reaches the
fallback/override steps. -/
theorem empty_answer_matches_first_rule :
    ∀ (g : Graph) (s : StateId) (node : Node) (trigger : String) (e : Edge) (a : String),
      lookupNode g s = some node →
      node.answers.head? = some (trigger, e) →
      normalize a = "" →
      getNextQuestion g s a = .ok (some e.next) := by
  intro g s node trigger e a hl hh hn
  have hf : findMatch node.answers (normalize a) = some e := by
    cases hans : node.answers with
    | nil => rw [hans] at hh; cases hh
    | cons p rest =>
      obtain ⟨t2, e2⟩ := p
      rw [hans] at hh
      simp only [List.head?, Option.some.injEq, Prod.mk.injEq] at hh
      rw [hn]
      unfold findMatch
      rw [ruleMatches_empty t2]
      simp [hh.2]
  exact getNextQuestion_of_match g s node a e hl hf

/-- Witness for amended C5 at state 1 with the answer `" "`. -/
theorem empty_answer_matches_first_rule_witness :
    (lookupNode needgodGraph (.num 1) = some q1 ∧
      q1.answers.head? = some ("heaven and hell",
        ⟨.name "heaven_question", some (.num 2)⟩) ∧
      normalize " " = "") ∧
    getNextQuestion needgodGraph (.num 1) " " = .ok (some (.name "heaven_question")) :=
  ⟨⟨by decide, by decide, by decide⟩,
   empty_answer_matches_first_rule needgodGraph (.num 1) q1 "heaven and hell"
     ⟨.name "heaven_question", some (.num 2)⟩ " " (by decide) (by decide) (by decide)⟩

/-- Claim C6: the terminal sentinel is absorbing at the session level —
when the current state has no node, `process_answer` appends nothing to
history, leaves the session unchanged, and reports completion, so repeated
submissions after completion never grow history. -/
theorem terminal_absorbing :
    ∀ (sess : Session) (a ts : String),
      lookupNode needgodGraph sess.currentQuestion = none →
      processAnswer sess a ts = (sess, Signal.complete) := by
  intro sess a ts h
  have hr : resolveNG sess.currentQuestion a = none := by
    unfold resolveNG
    rw [getNextQuestion_lookup_none needgodGraph sess.currentQuestion a h]
  unfold processAnswer
  rw [hr]
  unfold recordStep
  rw [h]

/-- Witness for C6: a session stranded at the unauthored digression
`lie_response` is left untouched by any further submission. -/
theorem terminal_absorbing_witness :
    lookupNode needgodGraph (.name "lie_response") = none ∧
    processAnswer { currentQuestion := .name "lie_response",
                    conversationHistory := [] } "yes" "12:00:00" =
      ({ currentQuestion := .name "lie_response", conversationHistory := [] },
       .complete) :=
  ⟨by decide,
   terminal_absorbing { currentQuestion := .name "lie_response",
                        conversationHistory := [] } "yes" "12:00:00" (by decide)⟩

/-- Claim C7: on a fresh session (state 1, empty history), submitting
"not sure" appends exactly one history entry — state 1, the prompt text of
question 1, the answer text and the timestamp — and advances the current
state to 2. -/
theorem fresh_not_sure_submit :
    ∀ ts : String,
      processAnswer freshSession "not sure" ts =
        ({ currentQuestion := .num 2,
           conversationHistory := [{ questionNum := .num 1, questionText := q1.text,
                                     answer := "not sure", timestamp := ts }] },
         .moved (.num 2)) := by
  intro ts
  rfl

/-- Claim C8: replaying the ordered answer column of the recorded history
of a session against a fresh session reproduces the final current state of
the original run. -/
theorem replay_roundtrip :
    ∀ (l : List (String × String)) (ts : String),
      (replaySession (answersOf (runSession freshSession l).conversationHistory) ts).currentQuestion =
        (runSession freshSession l).currentQuestion := by
  intro l ts
  unfold replaySession
  rw [runSession_current
    ((answersOf (runSession freshSession l).conversationHistory).map (fun a => (a, ts)))
    freshSession]
  rw [runSession_current l freshSession]
  have hpair : ∀ (xs : List String), (xs.map (fun a => (a, ts))).map Prod.fst = xs := by
    intro xs
    induction xs with
    | nil => rfl
    | cons x t ih => simp [ih]
  rw [hpair (answersOf (runSession freshSession l).conversationHistory)]
  rw [runSession_answers l freshSession]
  show List.foldl stepCurrent (StateId.num 1)
      (answersOf ([] : List HistoryEntry) ++
        recordedAnswers (StateId.num 1) (l.map Prod.fst)) = _
  simp only [answersOf, List.map_nil, List.nil_append]
  exact foldl_recorded (l.map Prod.fst) (StateId.num 1)

/-- Counterexample to claim C9: `parse_script` performs no validation and
cannot fail — on arbitrary content it returns the fixed embedded graph,
and that graph itself contains an edge (the "no" rule of state 4) whose target
`lie_response` is absent from the graph, yet it is fully runnable: the
resolver happily transitions into the dangling target. -/
theorem construction_no_validation_counterexample :
    parseScript "totally malformed script content" = needgodGraph ∧
    lookupNode needgodGraph (.num 4) = some q4 ∧
    ("no", Edge.mk (.name "lie_response") none) ∈ q4.answers ∧
    lookupNode needgodGraph (.name "lie_response") = none ∧
    getNextQuestion needgodGraph (.num 4) "no" = .ok (some (.name "lie_response")) :=
  ⟨rfl, by decide, by decide, by decide, by decide⟩

/-- Amended claim C9: graph construction never detects malformed input and
never fails — `parse_script` ignores its content argument and always
returns the fixed embedded graph, whose dangling edge targets (e.g.
`lie_response`) behave as the terminal sentinel at runtime instead of
halting initialization. -/
theorem construction_never_fails :
    ∀ (content a : String),
      parseScript content = needgodGraph ∧
      lookupNode (parseScript content) (.name "lie_response") = none ∧
      getNextQuestion (parseScript content) (.name "lie_response") a = .ok none := by
  intro content a
  have hp : parseScript content = needgodGraph := rfl
  refine ⟨hp, ?_, ?_⟩
  · rw [hp]
    decide
  · rw [hp]
    exact getNextQuestion_lookup_none _ _ _ (by decide)

/-- Claim C10: resolution never reads the `skip` field — two graphs that
agree after erasing every `skip` (i.e. differ only in the presence or
values of `skip` fields) resolve identically for every state and answer. -/
theorem resolver_ignores_skip :
    ∀ (g1 g2 : Graph) (s : StateId) (a : String),
      eraseSkipGraph g1 = eraseSkipGraph g2 →
      getNextQuestion g1 s a = getNextQuestion g2 s a := by
  intro g1 g2 s a h
  rw [← getNextQuestion_eraseSkip g1 s a, ← getNextQuestion_eraseSkip g2 s a, h]

/-- Witness for C10: the graph of the app versus its `skip`-erased variant
(they differ exactly in the two `skip` fields, on the "heaven and hell"
edge of state 1 and the "no" edge of state 2) resolve the same. -/
theorem resolver_ignores_skip_witness :
    eraseSkipGraph needgodGraph = eraseSkipGraph (eraseSkipGraph needgodGraph) ∧
    getNextQuestion needgodGraph (.num 1) "heaven and hell" =
      getNextQuestion (eraseSkipGraph needgodGraph) (.num 1) "heaven and hell" :=
  ⟨rfl,
   resolver_ignores_skip needgodGraph (eraseSkipGraph needgodGraph) (.num 1)
     "heaven and hell" rfl⟩

end NeedGod
